import Mathlib

/-!
# Verification of the RogerAI video-analysis backend

Shallow embedding of the pure logic of the repository:

* `timestamp_to_seconds`, `extract_frame_at_timestamp`'s index computation,
  `get_video_rotation`, `rotate_frame`, `slow_down_video`
  (web-app/backend/main.py);
* `VideoPoseProcessor.process_video`'s per-frame record construction and
  final statistics (video_pose_processor.py);
* `VideoAnalysisPipeline.analyze_video` / `batch_analyze` /
  `cleanup_all_videos` (web-app/backend/video_analysis_pipeline.py);
* `GeminiVideoAnalyzer.cleanup_video` (web-app/backend/gemini_analyzer.py).

Python floats are modelled as rationals (`Rat`); a Python function that can
return `None` is modelled with `Option`; a Python function that can raise is
modelled with `Except` or an explicit failure case.  External effects
(cv2 decode, ffprobe, the network) enter as explicit parameters: the list of
decoded frames, the probed metadata, the outcome functions of the remote
analyzer.
-/

namespace RogerAI

/-! ## Python `float(str)` on decimal literals

Model of CPython `float()` restricted to ordinary decimal literals
(optional surrounding whitespace, optional sign, digits with an optional
fractional part and an optional exponent).  `none` models a raised
`ValueError`.  Exotic accepted spellings (`inf`, `nan`, digit-group
underscores) are outside the modelled universe; no theorem below depends on
the numeric value of such a string. -/

def natOfDigits (ds : List Char) : Nat :=
  ds.foldl (fun acc c => acc * 10 + (c.toNat - '0'.toNat)) 0

/-- Strip of leading and trailing whitespace, as Python `float()` does before
parsing. -/
def pyTrim (cs : List Char) : List Char :=
  ((cs.dropWhile Char.isWhitespace).reverse.dropWhile Char.isWhitespace).reverse

/-- Splitting a character list at every occurrence of a separator character;
the list-of-characters counterpart of Python `str.split(sep)` (and of
`String.splitOn` for a one-character separator), written structurally so
that concrete instances reduce. -/
def splitOnChar (c : Char) : List Char → List (List Char)
  | [] => [[]]
  | x :: t =>
    if x = c then [] :: splitOnChar c t
    else
      match splitOnChar c t with
      | h :: r => (x :: h) :: r
      | [] => [[x]]

def pyFloatCore (cs₀ : List Char) : Option Rat :=
  let cs := pyTrim cs₀
  let sgncs : Rat × List Char :=
    match cs with
    | '-' :: t => (-1, t)
    | '+' :: t => (1, t)
    | _ => (1, cs)
  let sgn := sgncs.1
  let ip := sgncs.2.takeWhile Char.isDigit
  let cs₂ := sgncs.2.dropWhile Char.isDigit
  let fpcs : List Char × List Char :=
    match cs₂ with
    | '.' :: t => (t.takeWhile Char.isDigit, t.dropWhile Char.isDigit)
    | _ => ([], cs₂)
  let fp := fpcs.1
  if ip.isEmpty && fp.isEmpty then none
  else
    let mant : Rat := (natOfDigits ip : Rat) + (natOfDigits fp : Rat) / (10 : Rat) ^ fp.length
    match fpcs.2 with
    | [] => some (sgn * mant)
    | e :: t =>
      if e = 'e' || e = 'E' then
        let esgnt : Bool × List Char :=
          match t with
          | '-' :: t' => (true, t')
          | '+' :: t' => (false, t')
          | _ => (false, t)
        let ed := esgnt.2.takeWhile Char.isDigit
        let rest := esgnt.2.dropWhile Char.isDigit
        if ed.isEmpty || !rest.isEmpty then none
        else
          let scale : Rat := (10 : Rat) ^ natOfDigits ed
          some (sgn * (if esgnt.1 then mant / scale else mant * scale))
      else none

def pyFloat (s : String) : Option Rat :=
  pyFloatCore s.data

/-! ## `timestamp_to_seconds` (main.py, lines 98-123)

Direct translation of the Python.  The result type `Option Rat` records
that the Python function can fall off the end of its `try` block and
return `None`: that happens exactly when the string contains a colon and
splits into four or more parts, since then neither the two-part nor the
three-part branch fires and no `return` is executed.  A `float(...)` call
that raises `ValueError` is caught and turned into the `0.0` fallback,
modelled by `some 0`. -/

def timestamp_to_seconds (s : String) : Option Rat :=
  if s.data.contains ':' then
    let parts := splitOnChar ':' s.data
    if parts.length = 2 then
      match pyFloatCore (parts.getD 0 []), pyFloatCore (parts.getD 1 []) with
      | some m, some sec => some (m * 60 + sec)
      | _, _ => some 0
    else if parts.length = 3 then
      match pyFloatCore (parts.getD 0 []), pyFloatCore (parts.getD 1 []),
            pyFloatCore (parts.getD 2 []) with
      | some hh, some m, some sec => some (hh * 3600 + m * 60 + sec)
      | _, _, _ => some 0
    else
      none
  else
    match pyFloat s with
    | some v => some v
    | none => some 0

/-! ## Frame-index computation of `extract_frame_at_timestamp` (main.py, lines 139-161)

`int(timestamp_seconds * fps)` truncates toward zero, modelled by `pyInt`;
the two `if`s clamp the index into `[0, total_frames - 1]`. -/

def pyInt (q : Rat) : Int :=
  if q < 0 then ⌈q⌉ else ⌊q⌋

def extract_frame_index (timestamp_seconds fps : Rat) (total_frames : Int) : Int :=
  let frame_number := pyInt (timestamp_seconds * fps)
  if frame_number ≥ total_frames then total_frames - 1
  else if frame_number < 0 then 0
  else frame_number

/-! ## `get_video_rotation` (main.py, lines 284-324)

The ffprobe call is modelled by its parsed result: `none` when ffprobe
fails (nonzero return code, unparsable output, or any raised exception —
all of which the Python turns into the `0` fallback), otherwise the list
of streams.  A stream's `rotate` tag is modelled by its integer value when
present (`int(tags['rotate'])`); the Python loops over the streams and
returns at the first video stream that carries either a Display Matrix
side-data entry or a `rotate` tag. -/

structure SideData where
  side_data_type : String
  rotation : Option Int
deriving DecidableEq

structure VStream where
  codec_type : String
  side_data_list : List SideData
  tags_rotate : Option Int
deriving DecidableEq

def streamRotation (s : VStream) : Option Int :=
  if s.codec_type = "video" then
    match s.side_data_list.find? (fun sd => sd.side_data_type = "Display Matrix") with
    | some sd => some (-(sd.rotation.getD 0))
    | none => s.tags_rotate
  else
    none

def get_video_rotation (probe : Option (List VStream)) : Int :=
  match probe with
  | none => 0
  | some streams => (streams.findSome? streamRotation).getD 0

/-! ## `rotate_frame` and `slow_down_video` (main.py, lines 327-411)

Frames are an abstract type `α`; the three cv2 rotation primitives are
parameters.  `slow_down_video` is given the rotation angle detected from
metadata, the decoded frame sequence, and the input properties; `none`
models a `False` return (here: the `ZeroDivisionError` raised by
`original_fps / slow_factor` when `slow_factor` is zero, caught by the
surrounding handler). -/

def rotate_frame {α : Type} (rot90cw rot180 rot90ccw : α → α) (angle : Int) (f : α) : α :=
  if angle = 90 then rot90cw f
  else if angle = 180 then rot180 f
  else if angle = 270 then rot90ccw f
  else f

structure SlowVideo (α : Type) where
  frames : List α
  fps : Rat
  width : Nat
  height : Nat

def slow_down_video {α : Type} (rot90cw rot180 rot90ccw : α → α)
    (rotation_angle : Int) (input_frames : List α) (original_fps : Rat)
    (width height : Nat) (slow_factor : Rat) : Option (SlowVideo α) :=
  if slow_factor = 0 then none
  else
    let dims : Nat × Nat :=
      if rotation_angle = 90 ∨ rotation_angle = 270 then (height, width) else (width, height)
    let new_fps := original_fps / slow_factor
    some
      { frames := input_frames.map (fun f =>
          if rotation_angle ≠ 0 then rotate_frame rot90cw rot180 rot90ccw rotation_angle f else f)
        fps := new_fps
        width := dims.1
        height := dims.2 }

/-! ## `VideoPoseProcessor.process_video` (video_pose_processor.py, lines 109-179)

The decode loop is modelled by the list of its per-frame outcomes: each
decoded frame contributes the detector's result (`Option α`, `none` for a
detection miss) and the measured per-frame wall-clock duration.  `fps` is
`int(cap.get(cv2.CAP_PROP_FPS))` and `total_frames_meta` is
`int(cap.get(cv2.CAP_PROP_FRAME_COUNT))`; `total_processing_time` is the
wall clock of the whole pass.

The pass can abort with `ZeroDivisionError` at two sites, and then no
record sequence or statistics are produced (the loop's `try` has only a
`finally`); `process_video` returns `none` for both:
* line 132, `frame_count / fps` at the first decoded frame when `fps = 0`;
* line 155, the progress report `progress = (frame_count / total_frames) * 100`
  when the metadata frame count is 0 and the cadence check
  `frame_count % 100 == 0` fires, i.e. at least 100 frames decode
  (`frame_count == total_frames` cannot fire at 0 since `frame_count` is
  at least 1 there; the ETA division is by `frame_count`, never 0). -/

structure FrameRecord (α : Type) where
  frame_number : Nat
  timestamp : Rat
  pose_detected : Bool
  processing_time : Rat
  pose_data : Option α
deriving DecidableEq

def frameRecords {α : Type} (fps : Nat) : Nat → List (Option α × Rat) → List (FrameRecord α)
  | _, [] => []
  | i, (d, t) :: rest =>
    { frame_number := i
      timestamp := (i : Rat) / (fps : Rat)
      pose_detected := d.isSome
      processing_time := t
      pose_data := d } :: frameRecords fps (i + 1) rest

structure VideoStats where
  total_frames : Nat
  frames_with_pose : Nat
  total_processing_time : Rat
  avg_fps : Rat
  pose_detection_rate : Rat
deriving DecidableEq

def computeStats (total_frames frames_with_pose : Nat) (total_processing_time : Rat) :
    VideoStats :=
  { total_frames := total_frames
    frames_with_pose := frames_with_pose
    total_processing_time := total_processing_time
    avg_fps :=
      if 0 < total_processing_time then (total_frames : Rat) / total_processing_time else 0
    pose_detection_rate :=
      if 0 < total_frames then (frames_with_pose : Rat) / (total_frames : Rat) else 0 }

def process_video {α : Type} (fps total_frames_meta : Nat)
    (decoded : List (Option α × Rat)) (total_processing_time : Rat) :
    Option (List (FrameRecord α) × VideoStats) :=
  -- ZeroDivisionError in `frame_count / fps` at the first decoded frame
  if fps = 0 ∧ decoded.length ≠ 0 then none
  -- ZeroDivisionError in `(frame_count / total_frames) * 100` at the 100th decoded frame
  else if total_frames_meta = 0 ∧ 100 ≤ decoded.length then none
  else
    some (frameRecords fps 0 decoded,
      computeStats total_frames_meta (decoded.countP (fun f => f.1.isSome))
        total_processing_time)

/-! ## `VideoAnalysisPipeline` (video_analysis_pipeline.py)

The analyzer behind the pipeline is modelled by the outcomes of its four
capability operations: `initOk` (the value of `initialize()`), `upload`
(`upload_video`, `none` for a failed upload), `analyzeFn`
(`analyze_video(video_ref, prompt, additional_data)` with
`additional_data = None`, as the pipeline always passes — `none` for a
failed analysis) and `cleanupOk` (the boolean returned by
`cleanup_video`; the pipeline discards it).  The filesystem check
`os.path.exists` is the parameter `fileExists`.

`analyze_video_m` returns the raised-or-returned outcome, the new
`uploaded_videos` tracking list, and the ordered trace of the two
observable lifecycle events on the success path: persisting the analysis
result (`_save_analysis_result`) and attempting remote cleanup. -/

inductive PipeEvent (H : Type) where
  | save
  | cleanupAttempt (h : H)
deriving DecidableEq

structure AnalyzerM (H R : Type) where
  initOk : Bool
  upload : String → Option H
  analyzeFn : H → String → Option R
  cleanupOk : H → Bool

structure AnalysisRecord (R : Type) where
  video_path : String
  prompt : String
  analysis : R
  additional_data_provided : Bool
deriving DecidableEq

def analyze_video_m {H R : Type} [DecidableEq H] (A : AnalyzerM H R)
    (fileExists : String → Bool) (tracking : List H)
    (video_path prompt : String) (cleanup_after : Bool) :
    Except String (AnalysisRecord R) × List H × List (PipeEvent H) :=
  if fileExists video_path = false then
    (.error ("Video file not found: " ++ video_path), tracking, [])
  else if A.initOk = false then
    (.error "Failed to initialize video analyzer", tracking, [])
  else
    match A.upload video_path with
    | none => (.error "Failed to upload video", tracking, [])
    | some h =>
      let tracking₁ := tracking ++ [h]
      match A.analyzeFn h prompt with
      | none => (.error "Failed to analyze video", tracking₁, [])
      | some r =>
        let res : AnalysisRecord R :=
          { video_path := video_path, prompt := prompt, analysis := r
            additional_data_provided := false }
        if cleanup_after then
          -- the pipeline calls cleanup_video and ignores its boolean result
          let _ := A.cleanupOk h
          (.ok res,
           (if h ∈ tracking₁ then tracking₁.erase h else tracking₁),
           [.save, .cleanupAttempt h])
        else
          (.ok res, tracking₁, [.save])

/-- `cleanup_all_videos` (lines 194-198): iterate over a copy of
`uploaded_videos`, issuing a cleanup for each entry (result ignored) and
removing it from the live list. -/
def cleanup_all_m {H : Type} [DecidableEq H] (tracking : List H) : List H :=
  tracking.foldl (fun cur v => cur.erase v) tracking

/-! ### `batch_analyze` (lines 133-180)

The Python accumulates results in a dict keyed by `Path(video_path).stem`;
`dictInsert` is dict assignment (overwrite in place, else append), and
`pathStem` is `pathlib.PurePath.stem`: the final path component with its
last suffix removed, where a dot at position 0 or at the very end does not
start a suffix. -/

def lastDotIdx (cs : List Char) : Option Nat :=
  ((List.range cs.length).filter (fun i => cs.getD i ' ' = '.')).getLast?

def pathStem (p : String) : String :=
  let name := (splitOnChar '/' p.data).getLastD []
  match lastDotIdx name with
  | some i => if 0 < i ∧ i + 1 < name.length then ⟨name.take i⟩ else ⟨name⟩
  | none => ⟨name⟩

inductive BatchEntry (R : Type) where
  | ok (res : AnalysisRecord R)
  | error (msg : String)
deriving DecidableEq

def dictInsert {R : Type} (k : String) (v : BatchEntry R) :
    List (String × BatchEntry R) → List (String × BatchEntry R)
  | [] => [(k, v)]
  | (k', v') :: rest =>
    if k' = k then (k, v) :: rest else (k', v') :: dictInsert k v rest

def toEntry {R : Type} : Except String (AnalysisRecord R) → BatchEntry R
  | .ok res => .ok res
  | .error e => .error e

def batch_analyze_m {H R : Type} [DecidableEq H] (A : AnalyzerM H R)
    (fileExists : String → Bool) (tracking₀ : List H)
    (configs : List (String × String)) :
    List (String × BatchEntry R) × List H :=
  configs.foldl
    (fun acc cfg =>
      let out := analyze_video_m A fileExists acc.2 cfg.1 cfg.2 true
      (dictInsert (pathStem cfg.1) (toEntry out.1) acc.1, out.2.1))
    ([], tracking₀)

/-! ## `GeminiVideoAnalyzer.cleanup_video` (gemini_analyzer.py, lines 198-212)

`uploaded_files` is a Python dict; its key list is duplicate-free.  The
remote `genai.delete_file` call is modelled by `deleteOk`: `true` when the
call succeeds, `false` when it raises (the `except` branch then returns
`False` without removing the entry).  The function is total: every raise
is caught, so it never propagates an exception. -/

def cleanup_video_g (deleteOk : String → Bool) (files : List String) (ref : String) :
    Bool × List String :=
  if ref ∈ files then
    if deleteOk ref then (true, files.erase ref) else (false, files)
  else
    (true, files)

/-! ## Supporting lemmas -/

lemma splitOnChar_ne_nil (c : Char) (cs : List Char) : splitOnChar c cs ≠ [] := by
  cases cs with
  | nil => simp [splitOnChar]
  | cons x t =>
    simp only [splitOnChar]
    split
    · simp
    · split <;> simp_all

lemma two_le_splitOnChar_length_of_contains (c : Char) (cs : List Char)
    (h : cs.contains c = true) : 2 ≤ (splitOnChar c cs).length := by
  induction cs with
  | nil => simp at h
  | cons x t ih =>
    simp only [List.contains_cons, Bool.or_eq_true, beq_iff_eq] at h
    simp only [splitOnChar]
    by_cases hx : x = c
    · simp only [if_pos hx, List.length_cons]
      have := splitOnChar_ne_nil c t
      have : 1 ≤ (splitOnChar c t).length := by
        cases hsp : splitOnChar c t with
        | nil => exact absurd hsp this
        | cons a b => simp
      omega
    · have hct : t.contains c = true := by
        rcases h with h | h
        · first
          | exact (hx h).elim
          | exact (hx h.symm).elim
        · exact h
      have h2 := ih hct
      rw [if_neg hx]
      cases hsp : splitOnChar c t with
      | nil => exact absurd hsp (splitOnChar_ne_nil c t)
      | cons a b => rw [hsp] at h2; simpa using h2

/-! ## Claim theorems -/

/-- C1, counterexample: the timestamp parser does not always return a number
with the zero-second fallback on malformed input — on a colon string with
four parts (for instance `"1:2:3:4"`) neither the two-part nor the
three-part branch fires, no `return` executes, and the Python function
returns `None` rather than `0.0`. -/
theorem timestamp_to_seconds_four_parts_none :
    timestamp_to_seconds "1:2:3:4" = none := by
  simp [timestamp_to_seconds, splitOnChar]

/-- C1, amended: `timestamp_to_seconds` maps `"0:04"` to 4 seconds,
`"1:02:03"` to 3723 seconds, `"12.5"` to 12.5 seconds and the malformed
`"abc"` to the 0-second fallback, and it returns a number (never raising)
for every input whose colon-split has at most three parts; only a
colon-split into four or more parts yields no number (Python `None`). -/
theorem timestamp_to_seconds_spec :
    timestamp_to_seconds "0:04" = some 4 ∧
    timestamp_to_seconds "1:02:03" = some 3723 ∧
    timestamp_to_seconds "12.5" = some (25 / 2) ∧
    timestamp_to_seconds "abc" = some 0 ∧
    (∀ s : String, (splitOnChar ':' s.data).length ≤ 3 →
      (timestamp_to_seconds s).isSome = true) := by
  refine ⟨?_, ?_, ?_, ?_, ?_⟩
  · simp [timestamp_to_seconds, pyFloatCore, pyTrim, splitOnChar, natOfDigits]
    try norm_num
  · simp [timestamp_to_seconds, pyFloatCore, pyTrim, splitOnChar, natOfDigits]
    try norm_num
  · simp [timestamp_to_seconds, pyFloat, pyFloatCore, pyTrim, splitOnChar, natOfDigits]
    try norm_num
  · simp [timestamp_to_seconds, pyFloat, pyFloatCore, pyTrim, splitOnChar, natOfDigits]
    try norm_num
  · intro s hlen
    simp only [timestamp_to_seconds]
    split_ifs with hcq hl2 hl3
    · cases pyFloatCore ((splitOnChar ':' s.data).getD 0 []) <;>
        cases pyFloatCore ((splitOnChar ':' s.data).getD 1 []) <;> rfl
    · cases pyFloatCore ((splitOnChar ':' s.data).getD 0 []) <;>
        cases pyFloatCore ((splitOnChar ':' s.data).getD 1 []) <;>
        cases pyFloatCore ((splitOnChar ':' s.data).getD 2 []) <;> rfl
    · have h2 := two_le_splitOnChar_length_of_contains ':' s.data hcq
      omega
    · cases pyFloat s <;> rfl

/-- C1, witness for the amended theorem at a concrete input. -/
theorem timestamp_to_seconds_spec_witness :
    (splitOnChar ':' "7:08".data).length ≤ 3 ∧
    (timestamp_to_seconds "7:08").isSome = true :=
  ⟨by decide, timestamp_to_seconds_spec.2.2.2.2 "7:08" (by decide)⟩

/-- C7: for a video with at least one frame and positive fps, the extracted
frame index equals `floor(seconds * fps)` clamped into
`[0, total_frames - 1]`: timestamps past the end resolve to the last frame
and negative timestamps to frame 0.  (The Python computes
`int(seconds * fps)`, truncation toward zero; after clamping this agrees
with the floor-then-clamp of the claim for every input.) -/
theorem extract_frame_index_clamps (ts fps : Rat) (total : Int)
    (htot : 1 ≤ total) (hfps : 0 < fps) :
    extract_frame_index ts fps total = max 0 (min ⌊ts * fps⌋ (total - 1)) := by
  have hfc : ⌊ts * fps⌋ ≤ ⌈ts * fps⌉ := Int.floor_le_ceil _
  simp only [extract_frame_index, pyInt]
  rcases lt_or_le (ts * fps) 0 with hq | hq
  · have hce : ⌈ts * fps⌉ ≤ 0 := Int.ceil_le.mpr (by push_cast; exact hq.le)
    have hfl : ⌊ts * fps⌋ < 0 := by
      have := (Int.floor_nonneg (α := Rat)).not.mpr (not_le.mpr hq)
      omega
    simp only [if_pos hq]
    split_ifs <;> omega
  · have hfl : 0 ≤ ⌊ts * fps⌋ := Int.floor_nonneg.mpr hq
    simp only [not_lt.mpr hq, if_neg, if_false]
    split_ifs <;> omega

/-- C7, witness: fps 30, 300 total frames; 15 seconds resolves to the last
frame 299 and -1 seconds resolves to frame 0. -/
theorem extract_frame_index_clamps_witness :
    extract_frame_index 15 30 300 = 299 ∧ extract_frame_index (-1) 30 300 = 0 := by
  constructor
  · rw [extract_frame_index_clamps 15 30 300 (by norm_num) (by norm_num)]
    rw [show ((15 : Rat) * 30) = ((450 : Int) : Rat) by norm_num, Int.floor_intCast]
    decide
  · rw [extract_frame_index_clamps (-1) 30 300 (by norm_num) (by norm_num)]
    rw [show ((-1 : Rat) * 30) = ((-30 : Int) : Rat) by norm_num, Int.floor_intCast]
    decide

/-- C3: the rotation extracted from container metadata is not always in
{0, 90, 180, 270}.  On a video stream whose Display Matrix side data
carries `rotation = 90`, `get_video_rotation` returns `int(-rotation)`,
that is -90, which is outside the set its own docstring promises
("Returns: Rotation angle (0, 90, 180, 270)") — so the downstream
`rotate_frame` leaves such frames unrotated and `slow_down_video` does not
swap width and height for them. -/
theorem get_video_rotation_display_matrix_bug :
    get_video_rotation
        (some [{ codec_type := "video"
                 side_data_list := [{ side_data_type := "Display Matrix", rotation := some 90 }]
                 tags_rotate := none }]) = -90 ∧
    ¬((-90 : Int) = 0 ∨ (-90 : Int) = 90 ∨ (-90 : Int) = 180 ∨ (-90 : Int) = 270) := by
  decide

/-- C6: for every decoded frame sequence and every nonzero slow factor, the
slow-motion transform succeeds and writes each decoded (rotation-corrected)
frame exactly once — the output frame list is exactly the input list mapped
through the per-frame rotation, so it has the same length, with no frame
duplicated or dropped — and the output is encoded at
`original_fps / slow_factor`.  (A zero slow factor would raise
`ZeroDivisionError` inside the handler and return failure instead.) -/
theorem slow_down_video_preserves_frames {α : Type} (rot90cw rot180 rot90ccw : α → α)
    (angle : Int) (frames : List α) (ofps : Rat) (w h : Nat) (sf : Rat) (hsf : sf ≠ 0) :
    ∃ out, slow_down_video rot90cw rot180 rot90ccw angle frames ofps w h sf = some out ∧
      out.frames = frames.map (fun f =>
        if angle ≠ 0 then rotate_frame rot90cw rot180 rot90ccw angle f else f) ∧
      out.frames.length = frames.length ∧
      out.fps = ofps / sf := by
  simp only [slow_down_video, if_neg hsf]
  exact ⟨_, rfl, rfl, List.length_map _ _, rfl⟩

/-- C6, witness at a concrete three-frame video with slow factor 2. -/
theorem slow_down_video_preserves_frames_witness :
    (2 : Rat) ≠ 0 ∧
    ∃ out, slow_down_video (α := Nat) id id id 0 [10, 20, 30] 60 640 480 2 = some out ∧
      out.frames = [10, 20, 30].map (fun f => if (0 : Int) ≠ 0 then rotate_frame id id id 0 f else f) ∧
      out.frames.length = [10, 20, 30].length ∧
      out.fps = 60 / 2 :=
  ⟨by norm_num,
   slow_down_video_preserves_frames id id id 0 [10, 20, 30] 60 640 480 2 (by norm_num)⟩

/-- C2: whenever the engine completes a pass (returning statistics at all)
and the metadata frame count agrees with the number of decoded frames, the
finalized statistics satisfy: the detection rate equals
frames_with_pose / total_frames and lies in [0, 1] whenever
total_frames > 0; it is 0 when total_frames = 0 (the guard, not a division
fault); the average throughput equals total_frames / total_processing_time
when the duration is positive and is 0 when the duration is 0. -/
theorem process_video_stats_guarded {α : Type} (fps tf : Nat)
    (decoded : List (Option α × Rat)) (T : Rat)
    (recs : List (FrameRecord α)) (st : VideoStats)
    (hacc : tf = decoded.length)
    (hrun : process_video fps tf decoded T = some (recs, st)) :
    (0 < tf →
      st.pose_detection_rate = (st.frames_with_pose : Rat) / (tf : Rat) ∧
      0 ≤ st.pose_detection_rate ∧
      st.pose_detection_rate ≤ 1) ∧
    (tf = 0 → st.pose_detection_rate = 0) ∧
    (0 < T → st.avg_fps = (tf : Rat) / T) ∧
    (T = 0 → st.avg_fps = 0) := by
  have hst : st = computeStats tf (decoded.countP (fun f => f.1.isSome)) T := by
    simp only [process_video] at hrun
    split_ifs at hrun
    simp only [Option.some.injEq, Prod.mk.injEq] at hrun
    exact hrun.2.symm
  subst hst
  have hle : decoded.countP (fun f => f.1.isSome) ≤ tf := by
    rw [hacc]; exact List.countP_le_length _
  refine ⟨fun htf => ⟨?_, ?_, ?_⟩, fun htf => ?_, fun hT => ?_, fun hT => ?_⟩
  · simp only [computeStats]
    rw [if_pos htf]
  · simp only [computeStats]
    rw [if_pos htf]
    positivity
  · simp only [computeStats]
    rw [if_pos htf, div_le_one (by exact_mod_cast htf)]
    exact_mod_cast hle
  · simp only [computeStats]
    rw [if_neg (by omega)]
  · simp only [computeStats]
    rw [if_pos hT]
  · simp only [computeStats]
    rw [if_neg (by rw [hT]; exact lt_irrefl 0)]

/-- C2, witness: a completed two-frame pass, one detection, one second of
wall clock. -/
theorem process_video_stats_guarded_witness :
    (2 : Nat) = ([((some 0 : Option Nat), (1 : Rat)), (none, 2)]).length ∧
    ((0 < 2 →
      (computeStats 2 ([((some 0 : Option Nat), (1 : Rat)), (none, 2)].countP (fun f => f.1.isSome)) 1).pose_detection_rate =
        ((computeStats 2 ([((some 0 : Option Nat), (1 : Rat)), (none, 2)].countP (fun f => f.1.isSome)) 1).frames_with_pose : Rat) / (2 : Rat) ∧
      0 ≤ (computeStats 2 ([((some 0 : Option Nat), (1 : Rat)), (none, 2)].countP (fun f => f.1.isSome)) 1).pose_detection_rate ∧
      (computeStats 2 ([((some 0 : Option Nat), (1 : Rat)), (none, 2)].countP (fun f => f.1.isSome)) 1).pose_detection_rate ≤ 1) ∧
    ((2 : Nat) = 0 →
      (computeStats 2 ([((some 0 : Option Nat), (1 : Rat)), (none, 2)].countP (fun f => f.1.isSome)) 1).pose_detection_rate = 0) ∧
    ((0 : Rat) < 1 →
      (computeStats 2 ([((some 0 : Option Nat), (1 : Rat)), (none, 2)].countP (fun f => f.1.isSome)) 1).avg_fps = (2 : Rat) / 1) ∧
    ((1 : Rat) = 0 →
      (computeStats 2 ([((some 0 : Option Nat), (1 : Rat)), (none, 2)].countP (fun f => f.1.isSome)) 1).avg_fps = 0)) :=
  ⟨by decide,
   process_video_stats_guarded 30 2 [((some 0 : Option Nat), (1 : Rat)), (none, 2)] 1
     _ _ (by decide) rfl⟩

lemma frameRecords_length {α : Type} (fps k : Nat) (l : List (Option α × Rat)) :
    (frameRecords fps k l).length = l.length := by
  induction l generalizing k with
  | nil => rfl
  | cons hd tl ih => cases hd with
    | mk d t => simp [frameRecords, ih]

lemma frameRecords_get {α : Type} (fps k : Nat) (l : List (Option α × Rat))
    (i : Nat) (hi : i < (frameRecords fps k l).length) :
    (frameRecords fps k l).get ⟨i, hi⟩ =
      { frame_number := k + i
        timestamp := ((k + i : Nat) : Rat) / (fps : Rat)
        pose_detected := (l.getD i (none, 0)).1.isSome
        processing_time := (l.getD i (none, 0)).2
        pose_data := (l.getD i (none, 0)).1 } := by
  induction l generalizing k i with
  | nil => simp [frameRecords] at hi
  | cons hd tl ih =>
    cases hd with
    | mk d t =>
      cases i with
      | zero => simp [frameRecords]
      | succ n =>
        have hk : k + 1 + n = k + (n + 1) := by omega
        simp only [frameRecords, List.get_cons_succ, List.getD_cons_succ]
        rw [ih, hk]

/-- C5, counterexample: the engine does not produce a FrameRecord sequence
for every video whose decode yields N frames.  With a metadata frame count
of 0 (OpenCV reports 0 when the container exposes no count) and 100
decodable frames, the progress report at the 100th frame computes
`(frame_count / total_frames) * 100` and raises `ZeroDivisionError`; the
loop's `try` has only a `finally`, so the pass aborts and no record
sequence is produced — here at fps 30 with 100 decoded frames. -/
theorem process_video_zero_meta_no_records :
    process_video 30 0 (List.replicate 100 ((none : Option Nat), (0 : Rat))) 1 = none := by
  simp [process_video]

/-- C5, amended: provided the pass does not hit a `ZeroDivisionError`
(`fps` positive, and not both a zero metadata frame count and at least 100
decoded frames — otherwise the pass aborts and yields nothing), the engine
completes and emits exactly one FrameRecord per decoded frame, in decode
order: the record list has the same length as the decoded frame sequence,
the i-th record has `frame_number = i` (so frame numbers are strictly
increasing from 0), `timestamp = frame_number / fps`, and it carries the
i-th frame's detection outcome — nothing is reordered or removed. -/
theorem process_video_frame_records {α : Type} (fps tf : Nat)
    (decoded : List (Option α × Rat)) (T : Rat) (hfps : 0 < fps)
    (hprog : ¬(tf = 0 ∧ 100 ≤ decoded.length)) :
    ∃ recs st, process_video fps tf decoded T = some (recs, st) ∧
      recs.length = decoded.length ∧
      ∀ i (hi : i < recs.length),
        (recs.get ⟨i, hi⟩).frame_number = i ∧
        (recs.get ⟨i, hi⟩).timestamp = (i : Rat) / (fps : Rat) ∧
        (recs.get ⟨i, hi⟩).pose_data = (decoded.getD i (none, 0)).1 := by
  refine ⟨frameRecords fps 0 decoded,
    computeStats tf (decoded.countP (fun f => f.1.isSome)) T, ?_,
    frameRecords_length fps 0 decoded, fun i hi => ?_⟩
  · simp only [process_video]
    rw [if_neg (fun hh => absurd hh.1 (by omega)), if_neg hprog]
  · have hg := frameRecords_get fps 0 decoded i hi
    refine ⟨?_, ?_, ?_⟩
    · show ((frameRecords fps 0 decoded).get ⟨i, hi⟩).frame_number = i
      rw [hg]
      simp
    · show ((frameRecords fps 0 decoded).get ⟨i, hi⟩).timestamp = (i : Rat) / (fps : Rat)
      rw [hg]
      simp
    · show ((frameRecords fps 0 decoded).get ⟨i, hi⟩).pose_data = (decoded.getD i (none, 0)).1
      rw [hg]

/-- C5, witness: a concrete two-frame decode at 30 fps with metadata count
5, away from both abort regions. -/
theorem process_video_frame_records_witness :
    0 < 30 ∧ ¬((5 : Nat) = 0 ∧ 100 ≤ ([((some 7 : Option Nat), (1 : Rat)), (none, 2)]).length) ∧
    ∃ recs st,
      process_video 30 5 [((some 7 : Option Nat), (1 : Rat)), (none, 2)] 4 = some (recs, st) ∧
      recs.length = ([((some 7 : Option Nat), (1 : Rat)), (none, 2)]).length ∧
      ∀ i (hi : i < recs.length),
        (recs.get ⟨i, hi⟩).frame_number = i ∧
        (recs.get ⟨i, hi⟩).timestamp = (i : Rat) / (30 : Rat) ∧
        (recs.get ⟨i, hi⟩).pose_data =
          (([((some 7 : Option Nat), (1 : Rat)), (none, 2)]).getD i (none, 0)).1 :=
  ⟨by decide, by decide,
   process_video_frame_records 30 5 [((some 7 : Option Nat), (1 : Rat)), (none, 2)] 4
     (by decide) (by decide)⟩

lemma cleanup_all_m_nil {H : Type} [DecidableEq H] (l : List H) : cleanup_all_m l = [] := by
  induction l with
  | nil => rfl
  | cons x t ih =>
    show List.foldl (fun cur v => cur.erase v) (x :: t) (x :: t) = []
    rw [List.foldl_cons, List.erase_cons_head]
    exact ih

lemma analyze_video_m_ok {H R : Type} [DecidableEq H] (A : AnalyzerM H R)
    (ex : String → Bool) (tracking : List H) (p pr : String) (h : H) (r : R)
    (hex : ex p = true) (hinit : A.initOk = true)
    (hup : A.upload p = some h) (han : A.analyzeFn h pr = some r)
    (hfresh : h ∉ tracking) :
    analyze_video_m A ex tracking p pr true =
      (.ok { video_path := p, prompt := pr, analysis := r, additional_data_provided := false },
       tracking, [.save, .cleanupAttempt h]) := by
  have hmem : h ∈ tracking ++ [h] := by simp
  have herase : (tracking ++ [h]).erase h = tracking := by
    rw [List.erase_append_right _ hfresh, List.erase_cons_head]
    simp
  simp [analyze_video_m, hex, hinit, hup, han, hmem, herase]

lemma analyze_video_m_upload_failed {H R : Type} [DecidableEq H] (A : AnalyzerM H R)
    (ex : String → Bool) (tracking : List H) (p pr : String) (c : Bool)
    (hex : ex p = true) (hinit : A.initOk = true) (hup : A.upload p = none) :
    analyze_video_m A ex tracking p pr c =
      (.error "Failed to upload video", tracking, []) := by
  simp [analyze_video_m, hex, hinit, hup]

/-- C4: in a successful single-video run with cleanup requested, the
pipeline persists the analysis result strictly before it attempts cleanup
(the event trace is `[save, cleanupAttempt h]` in that order), and after
the cleanup attempt the handle is gone from `uploaded_videos` — this holds
for every analyzer, in particular whatever boolean `cleanup_video` returns,
so a cleanup failure neither loses the saved result nor leaves the handle
to be retried; moreover `cleanup_all_videos` always empties the tracking
list. -/
theorem analyze_video_saves_before_cleanup {H R : Type} [DecidableEq H] (A : AnalyzerM H R)
    (fileExists : String → Bool) (tracking : List H) (p pr : String) (h : H) (r : R)
    (hex : fileExists p = true) (hinit : A.initOk = true)
    (hup : A.upload p = some h) (han : A.analyzeFn h pr = some r)
    (hfresh : h ∉ tracking) :
    analyze_video_m A fileExists tracking p pr true =
      (.ok { video_path := p, prompt := pr, analysis := r, additional_data_provided := false },
       tracking, [.save, .cleanupAttempt h]) ∧
    ∀ l : List H, cleanup_all_m l = [] :=
  ⟨analyze_video_m_ok A fileExists tracking p pr h r hex hinit hup han hfresh,
   fun l => cleanup_all_m_nil l⟩

/-- C4, witness: a concrete analyzer whose remote cleanup fails
(`cleanupOk` is constantly false); the result is still saved first and the
handle still leaves the tracking list. -/
theorem analyze_video_saves_before_cleanup_witness :
    ((fun _ : String => true) "u.mp4" = true) ∧
    (analyze_video_m (H := Nat) (R := Nat)
        { initOk := true, upload := fun _ => some 7, analyzeFn := fun _ _ => some 3,
          cleanupOk := fun _ => false }
        (fun _ => true) [] "u.mp4" "analyze the serve" true =
      (.ok { video_path := "u.mp4", prompt := "analyze the serve", analysis := 3,
             additional_data_provided := false }, [], [.save, .cleanupAttempt 7]) ∧
     ∀ l : List Nat, cleanup_all_m l = []) :=
  ⟨rfl,
   analyze_video_saves_before_cleanup
     { initOk := true, upload := fun _ => some 7, analyzeFn := fun _ _ => some 3,
       cleanupOk := fun _ => false }
     (fun _ => true) [] "u.mp4" "analyze the serve" 7 3 rfl rfl rfl rfl (by simp)⟩

/-- C8: `cleanup_video` is idempotent and total: when the remote delete
succeeds, a first call on a tracked handle returns success and a second
call on the same handle (now untracked) returns success again; a call on a
handle that was never tracked (or already removed) returns success and
leaves the tracked map unchanged.  Every exception of the remote call is
caught, so the operation always returns a boolean. -/
theorem cleanup_video_idempotent (deleteOk : String → Bool) (files : List String) (ref : String)
    (hnodup : files.Nodup) (hdel : deleteOk ref = true) :
    (cleanup_video_g deleteOk files ref).1 = true ∧
    (cleanup_video_g deleteOk (cleanup_video_g deleteOk files ref).2 ref).1 = true ∧
    ∀ r, r ∉ files → cleanup_video_g deleteOk files r = (true, files) := by
  refine ⟨?_, ?_, fun r hr => ?_⟩
  · by_cases hm : ref ∈ files <;> simp [cleanup_video_g, hm, hdel]
  · by_cases hm : ref ∈ files
    · have hne : ref ∉ files.erase ref := by
        intro hmem
        exact ((hnodup.mem_erase_iff).mp hmem).1 rfl
      simp [cleanup_video_g, hm, hdel, hne]
    · simp [cleanup_video_g, hm]
  · simp [cleanup_video_g, hr]

/-- C8, witness: one tracked upload, successful remote delete. -/
theorem cleanup_video_idempotent_witness :
    (["files/abc"] : List String).Nodup ∧
    ((cleanup_video_g (fun _ => true) ["files/abc"] "files/abc").1 = true ∧
     (cleanup_video_g (fun _ => true)
        (cleanup_video_g (fun _ => true) ["files/abc"] "files/abc").2 "files/abc").1 = true ∧
     ∀ r, r ∉ (["files/abc"] : List String) →
       cleanup_video_g (fun _ => true) ["files/abc"] r = (true, ["files/abc"])) :=
  ⟨by decide,
   cleanup_video_idempotent (fun _ => true) ["files/abc"] "files/abc" (by decide) rfl⟩

/-- C9: in a three-item batch whose second upload fails, every item is
processed (the batch is not halted), items 1 and 3 contribute their
successful analyses under their stems, and item 2 contributes an explicit
per-item error entry under its stem. -/
theorem batch_analyze_isolates_failures {H R : Type} [DecidableEq H] (A : AnalyzerM H R)
    (ex : String → Bool) (p1 p2 p3 pr1 pr2 pr3 : String) (h1 h3 : H) (r1 r3 : R)
    (hex1 : ex p1 = true) (hex2 : ex p2 = true) (hex3 : ex p3 = true)
    (hinit : A.initOk = true)
    (hup1 : A.upload p1 = some h1) (hup2 : A.upload p2 = none) (hup3 : A.upload p3 = some h3)
    (han1 : A.analyzeFn h1 pr1 = some r1) (han3 : A.analyzeFn h3 pr3 = some r3)
    (hs12 : pathStem p1 ≠ pathStem p2) (hs13 : pathStem p1 ≠ pathStem p3)
    (hs23 : pathStem p2 ≠ pathStem p3) :
    batch_analyze_m A ex [] [(p1, pr1), (p2, pr2), (p3, pr3)] =
      ([(pathStem p1,
          .ok { video_path := p1, prompt := pr1, analysis := r1, additional_data_provided := false }),
        (pathStem p2, .error "Failed to upload video"),
        (pathStem p3,
          .ok { video_path := p3, prompt := pr3, analysis := r3, additional_data_provided := false })],
       []) := by
  have o1 := analyze_video_m_ok A ex [] p1 pr1 h1 r1 hex1 hinit hup1 han1 (by simp)
  have o2 := analyze_video_m_upload_failed A ex [] p2 pr2 true hex2 hinit hup2
  have o3 := analyze_video_m_ok A ex [] p3 pr3 h3 r3 hex3 hinit hup3 han3 (by simp)
  simp [batch_analyze_m, o1, o2, o3, dictInsert, toEntry, hs12, hs13, hs23]

/-- C9, witness: a concrete analyzer failing exactly on the second video. -/
theorem batch_analyze_isolates_failures_witness :
    pathStem "a.mp4" ≠ pathStem "b.mp4" ∧
    batch_analyze_m (H := Nat) (R := Nat)
        { initOk := true,
          upload := fun p => if p = "b.mp4" then none else some p.length,
          analyzeFn := fun h _ => some h,
          cleanupOk := fun _ => true }
        (fun _ => true) [] [("a.mp4", "x"), ("b.mp4", "y"), ("c3.mp4", "z")] =
      ([(pathStem "a.mp4",
          .ok { video_path := "a.mp4", prompt := "x", analysis := 5, additional_data_provided := false }),
        (pathStem "b.mp4", .error "Failed to upload video"),
        (pathStem "c3.mp4",
          .ok { video_path := "c3.mp4", prompt := "z", analysis := 6, additional_data_provided := false })],
       []) :=
  ⟨by decide,
   batch_analyze_isolates_failures
     { initOk := true,
       upload := fun p => if p = "b.mp4" then none else some p.length,
       analyzeFn := fun h _ => some h,
       cleanupOk := fun _ => true }
     (fun _ => true) "a.mp4" "b.mp4" "c3.mp4" "x" "y" "z" 5 6 5 6
     rfl rfl rfl rfl (by decide) (by decide) (by decide) (by decide) (by decide)
     (by decide) (by decide) (by decide)⟩

lemma analyze_video_m_fst_independent {H R : Type} [DecidableEq H] (A : AnalyzerM H R)
    (ex : String → Bool) (tr tr' : List H) (p pr : String) (c : Bool) :
    (analyze_video_m A ex tr p pr c).1 = (analyze_video_m A ex tr' p pr c).1 := by
  cases hex : ex p with
  | false => simp [analyze_video_m, hex]
  | true =>
    cases hinit : A.initOk with
    | false => simp [analyze_video_m, hex, hinit]
    | true =>
      cases hup : A.upload p with
      | none => simp [analyze_video_m, hex, hinit, hup]
      | some h =>
        cases han : A.analyzeFn h pr with
        | none => simp [analyze_video_m, hex, hinit, hup, han]
        | some r => cases c <;> simp [analyze_video_m, hex, hinit, hup, han]

/-- C10 (implicit): the batch result dict is keyed by the video path's stem,
so two configurations whose paths share a stem collide — the second item's
result or error overwrites the first item's entry, and the batch result has
fewer entries than configurations. -/
theorem batch_analyze_stem_collision {H R : Type} [DecidableEq H] (A : AnalyzerM H R)
    (ex : String → Bool) (p1 p2 pr1 pr2 : String)
    (hstem : pathStem p1 = pathStem p2) :
    (batch_analyze_m A ex [] [(p1, pr1), (p2, pr2)]).1 =
      [(pathStem p1, toEntry (analyze_video_m A ex [] p2 pr2 true).1)] ∧
    (batch_analyze_m A ex [] [(p1, pr1), (p2, pr2)]).1.length <
      ([(p1, pr1), (p2, pr2)] : List (String × String)).length := by
  have hind := analyze_video_m_fst_independent A ex
    ((analyze_video_m A ex [] p1 pr1 true).2.1) [] p2 pr2 true
  have hmain : (batch_analyze_m A ex [] [(p1, pr1), (p2, pr2)]).1 =
      [(pathStem p1, toEntry (analyze_video_m A ex [] p2 pr2 true).1)] := by
    simp only [batch_analyze_m, List.foldl_cons, List.foldl_nil, dictInsert]
    rw [if_pos hstem, hind, hstem]
  exact ⟨hmain, by rw [hmain]; simp⟩

/-- C10, witness: the same filename in two different directories. -/
theorem batch_analyze_stem_collision_witness :
    pathStem "videos/serve.mp4" = pathStem "backup/serve.mp4" ∧
    ((batch_analyze_m (H := Nat) (R := Nat)
        { initOk := true, upload := fun _ => none, analyzeFn := fun _ _ => none,
          cleanupOk := fun _ => true }
        (fun _ => true) [] [("videos/serve.mp4", "x"), ("backup/serve.mp4", "y")]).1 =
      [(pathStem "videos/serve.mp4",
        toEntry (analyze_video_m (H := Nat) (R := Nat)
          { initOk := true, upload := fun _ => none, analyzeFn := fun _ _ => none,
            cleanupOk := fun _ => true }
          (fun _ => true) [] "backup/serve.mp4" "y" true).1)] ∧
     (batch_analyze_m (H := Nat) (R := Nat)
        { initOk := true, upload := fun _ => none, analyzeFn := fun _ _ => none,
          cleanupOk := fun _ => true }
        (fun _ => true) [] [("videos/serve.mp4", "x"), ("backup/serve.mp4", "y")]).1.length <
      ([("videos/serve.mp4", "x"), ("backup/serve.mp4", "y")] : List (String × String)).length) :=
  ⟨by decide,
   batch_analyze_stem_collision
     { initOk := true, upload := fun _ => none, analyzeFn := fun _ _ => none,
       cleanupOk := fun _ => true }
     (fun _ => true) "videos/serve.mp4" "backup/serve.mp4" "x" "y" (by decide)⟩

end RogerAI
